import Mathlib

/-!
Shallow embedding of the FocusTimer application core:
* `FocusTimer` and its operations, from src/core/timer.py;
* `TimerWidget` event emission, from src/ui/timer_widget.py;
* `MainWindow` session-recording coordination, from src/ui/main_window.py
  (`on_timer_started` / `on_timer_finished`);
* the daily aggregate recomputation, from `Database._update_daily_stats`
  in src/config/database.py.

Wall-clock time is modelled as integer seconds.  Machine `datetime`
subtraction becomes integer subtraction.  Qt signals become explicit
event lists returned by each operation.
-/

/-- The four timer states of `TimerState` in src/core/timer.py. -/
inductive TimerState
  | idle
  | running
  | paused
  | finished
deriving DecidableEq

/-- Events emitted by `FocusTimer` (the four Qt signals declared in
src/core/timer.py).  The float payload of `progress_updated` is not
modelled; the claims never mention it. -/
inductive TEvent
  | state_changed (s : TimerState)
  | time_updated (remaining total : Int)
  | progress_updated
  | finished (timer_type : String) (actual_duration : Int) (completed : Bool)
deriving DecidableEq

/-- In-memory state of `FocusTimer` (src/core/timer.py, `__init__`).
`qt_active` models whether `self._qt_timer` is started. -/
structure FocusTimer where
  state : TimerState
  timer_type : String
  total_duration : Int
  remaining_time : Int
  elapsed_time : Int
  session_id : Option Int
  start_time : Option Int
  pause_time : Option Int
  total_pause_duration : Int
  qt_active : Bool
deriving DecidableEq

/-- The state built by `FocusTimer.__init__`. -/
def initTimer : FocusTimer :=
  { state := TimerState.idle
    timer_type := ""
    total_duration := 0
    remaining_time := 0
    elapsed_time := 0
    session_id := none
    start_time := none
    pause_time := none
    total_pause_duration := 0
    qt_active := false }

/-- Result of a `FocusTimer` operation: returned boolean, new state and
the events emitted during the call, in emission order. -/
structure StepResult where
  ok : Bool
  timer : FocusTimer
  events : List TEvent
deriving DecidableEq

/-- `FocusTimer._set_state`: emits `state_changed` only on an actual change. -/
def FocusTimer.set_state (t : FocusTimer) (new_state : TimerState) :
    FocusTimer × List TEvent :=
  if t.state ≠ new_state then
    ({ t with state := new_state }, [TEvent.state_changed new_state])
  else (t, [])

/-- `FocusTimer._emit_time_signals`. -/
def FocusTimer.emit_time_signals (t : FocusTimer) : List TEvent :=
  [TEvent.time_updated t.remaining_time t.total_duration, TEvent.progress_updated]

/-- `FocusTimer._reset_state`: clears every field except `state` and the Qt timer. -/
def FocusTimer.reset_state (t : FocusTimer) : FocusTimer :=
  { t with timer_type := ""
           total_duration := 0
           remaining_time := 0
           elapsed_time := 0
           session_id := none
           start_time := none
           pause_time := none
           total_pause_duration := 0 }

/-- `FocusTimer.start` (src/core/timer.py lines 110-139). -/
def FocusTimer.start (t : FocusTimer) (now : Int) (timer_type : String)
    (duration : Int) (session_id : Option Int) : StepResult :=
  if t.state = TimerState.running ∨ t.state = TimerState.paused then
    ⟨false, t, []⟩
  else
    let t1 : FocusTimer :=
      { t with timer_type := timer_type
               total_duration := duration
               remaining_time := duration
               elapsed_time := 0
               session_id := session_id
               start_time := some now
               pause_time := none
               total_pause_duration := 0 }
    let p := t1.set_state TimerState.running
    let t2 : FocusTimer := { p.1 with qt_active := true }
    ⟨true, t2, p.2 ++ t2.emit_time_signals⟩

/-- `FocusTimer.pause` (src/core/timer.py lines 141-152). -/
def FocusTimer.pause (t : FocusTimer) (now : Int) : StepResult :=
  if t.state ≠ TimerState.running then
    ⟨false, t, []⟩
  else
    let t1 : FocusTimer := { t with qt_active := false, pause_time := some now }
    let p := t1.set_state TimerState.paused
    ⟨true, p.1, p.2⟩

/-- `FocusTimer.resume` (src/core/timer.py lines 154-170). -/
def FocusTimer.resume (t : FocusTimer) (now : Int) : StepResult :=
  if t.state ≠ TimerState.paused then
    ⟨false, t, []⟩
  else
    let t1 : FocusTimer :=
      match t.pause_time with
      | some p =>
          { t with total_pause_duration := t.total_pause_duration + (now - p)
                   pause_time := none }
      | none => t
    let t2 : FocusTimer := { t1 with qt_active := true }
    let p := t2.set_state TimerState.running
    ⟨true, p.1, p.2⟩

/-- `FocusTimer.stop` (src/core/timer.py lines 172-204). -/
def FocusTimer.stop (t : FocusTimer) (now : Int) (completed : Bool) : StepResult :=
  if t.state = TimerState.idle then
    ⟨false, t, []⟩
  else
    let t1 : FocusTimer := { t with qt_active := false }
    let actual_duration := t1.elapsed_time
    let t2 : FocusTimer :=
      if t1.state = TimerState.paused then
        match t1.pause_time with
        | some p =>
            { t1 with total_pause_duration := t1.total_pause_duration + (now - p) }
        | none => t1
      else t1
    let p := t2.set_state (if completed then TimerState.finished else TimerState.idle)
    let events := p.2 ++ [TEvent.finished p.1.timer_type actual_duration completed]
    let t3 : FocusTimer := if completed then p.1 else p.1.reset_state
    ⟨true, t3, events⟩

/-- `FocusTimer._on_timer_tick` (src/core/timer.py lines 251-264). -/
def FocusTimer.on_timer_tick (t : FocusTimer) (now : Int) :
    FocusTimer × List TEvent :=
  if t.state ≠ TimerState.running then
    (t, [])
  else
    let t1 : FocusTimer :=
      { t with remaining_time := t.remaining_time - 1
               elapsed_time := t.elapsed_time + 1 }
    let ev1 := t1.emit_time_signals
    if t1.remaining_time ≤ 0 then
      let r := t1.stop now true
      (r.timer, ev1 ++ r.events)
    else (t1, ev1)

/-- `FocusTimer.reset` (src/core/timer.py lines 206-212). -/
def FocusTimer.reset (t : FocusTimer) : FocusTimer × List TEvent :=
  let t1 := FocusTimer.reset_state { t with qt_active := false }
  t1.set_state TimerState.idle

/-- `FocusTimer.add_time` (src/core/timer.py lines 214-235). -/
def FocusTimer.add_time (t : FocusTimer) (seconds : Int) : StepResult :=
  if t.state = TimerState.running ∨ t.state = TimerState.paused then
    let new_remaining := max 0 (t.remaining_time + seconds)
    let time_diff := new_remaining - t.remaining_time
    let t1 : FocusTimer :=
      { t with remaining_time := new_remaining
               total_duration := t.total_duration + time_diff }
    let t2 : FocusTimer := { t1 with elapsed_time := t1.total_duration - t1.remaining_time }
    ⟨true, t2, t2.emit_time_signals⟩
  else
    ⟨false, t, []⟩

/-- Number of `finished` events in a `FocusTimer` event list. -/
def tfinished_count (l : List TEvent) : Nat :=
  (l.filter fun e =>
    match e with
    | TEvent.finished _ _ _ => true
    | _ => false).length

/-- States reachable from `FocusTimer.__init__` by the public operations
(with arbitrary wall-clock instants and arguments). -/
inductive ReachableTimer : FocusTimer → Prop
  | init : ReachableTimer initTimer
  | start (t now timer_type duration session_id) :
      ReachableTimer t → ReachableTimer (t.start now timer_type duration session_id).timer
  | pause (t now) : ReachableTimer t → ReachableTimer (t.pause now).timer
  | resume (t now) : ReachableTimer t → ReachableTimer (t.resume now).timer
  | stop (t now completed) : ReachableTimer t → ReachableTimer (t.stop now completed).timer
  | tick (t now) : ReachableTimer t → ReachableTimer (t.on_timer_tick now).1
  | reset (t) : ReachableTimer t → ReachableTimer t.reset.1
  | add_time (t seconds) : ReachableTimer t → ReachableTimer (t.add_time seconds).timer

/-!
The widget / coordinator / store subsystem.  The application wires
`TimerWidget.timer_started` / `TimerWidget.timer_finished` to
`MainWindow.on_timer_started` / `MainWindow.on_timer_finished`
(src/ui/main_window.py lines 368-369); the persistence store is
`Database` (src/config/database.py).  The `timer.auto_switch` setting
is modelled at its default value `False`
(`self.settings.get("timer.auto_switch", False)`).
-/

/-- Events emitted by `TimerWidget` (the two signals declared at the top
of src/ui/timer_widget.py). -/
inductive WEvent
  | timer_started (timer_type : String) (planned_duration : Int) (start_time : Int)
  | timer_finished (timer_type : String) (duration : Int) (auto_completed : Bool)
deriving DecidableEq

/-- In-memory state of `TimerWidget` (src/ui/timer_widget.py,
`__init__` and `set_timer_type`); `qtimer_active` models whether
`self.timer` (the widget's QTimer) is started. -/
structure TimerWidget where
  total_seconds : Int
  remaining_seconds : Int
  is_running : Bool
  is_paused : Bool
  current_timer_type : String
  start_time : Option Int
  pause_time : Option Int
  total_pause_duration : Int
  qtimer_active : Bool
deriving DecidableEq

/-- A fresh widget showing timer type `timer_type` with configured
duration `duration` (state after `__init__` + `set_timer_type`). -/
def initWidget (timer_type : String) (duration : Int) : TimerWidget :=
  { total_seconds := duration
    remaining_seconds := duration
    is_running := false
    is_paused := false
    current_timer_type := timer_type
    start_time := none
    pause_time := none
    total_pause_duration := 0
    qtimer_active := false }

/-- `TimerWidget.start_timer` with `type_id=None`
(src/ui/timer_widget.py lines 233-263).  Also serves as the resume
path: when `start_time` is already set the call folds the pending pause
interval instead of emitting `timer_started`. -/
def TimerWidget.start_timer (w : TimerWidget) (now : Int) :
    TimerWidget × List WEvent :=
  if w.remaining_seconds > 0 then
    let w1 : TimerWidget := { w with is_running := true, is_paused := false, qtimer_active := true }
    match w1.start_time with
    | none =>
        let w2 : TimerWidget := { w1 with start_time := some now, total_pause_duration := 0 }
        (w2, [WEvent.timer_started w2.current_timer_type w2.total_seconds now])
    | some _ =>
        match w1.pause_time with
        | some p =>
            ({ w1 with total_pause_duration := w1.total_pause_duration + (now - p)
                       pause_time := none }, [])
        | none => (w1, [])
  else (w, [])

/-- `TimerWidget.pause_timer` (src/ui/timer_widget.py lines 265-277). -/
def TimerWidget.pause_timer (w : TimerWidget) (now : Int) :
    TimerWidget × List WEvent :=
  if w.is_running then
    ({ w with is_running := false, is_paused := true, qtimer_active := false
              pause_time := some now }, [])
  else (w, [])

/-- `TimerWidget.stop_timer` (src/ui/timer_widget.py lines 279-308).
The wall-clock argument is unused: the end time computed there only
feeds a commented-out formula in the source. -/
def TimerWidget.stop_timer (w : TimerWidget) (_now : Int) :
    TimerWidget × List WEvent :=
  let w1 : TimerWidget := { w with is_running := false, is_paused := false, qtimer_active := false }
  let elapsed_time := w1.total_seconds - w1.remaining_seconds
  let events :=
    if w1.current_timer_type = "study" ∧ elapsed_time > 0 ∧ w1.start_time ≠ none then
      [WEvent.timer_finished w1.current_timer_type elapsed_time false]
    else []
  let w2 : TimerWidget :=
    { w1 with start_time := none, pause_time := none, total_pause_duration := 0 }
  (w2, events)

/-- `TimerWidget._update_time` (src/ui/timer_widget.py lines 327-362),
with the `timer.auto_switch` flag at its default `False`. -/
def TimerWidget.update_time (w : TimerWidget) : TimerWidget × List WEvent :=
  if w.remaining_seconds > 0 then
    let w1 : TimerWidget := { w with remaining_seconds := w.remaining_seconds - 1 }
    if w1.remaining_seconds = 0 then
      let w2 : TimerWidget := { w1 with is_running := false, is_paused := false, qtimer_active := false }
      let events := [WEvent.timer_finished w2.current_timer_type w2.total_seconds true]
      let w3 : TimerWidget :=
        { w2 with start_time := none, pause_time := none, total_pause_duration := 0 }
      (w3, events)
    else (w1, [])
  else (w, [])

/-- One persisted row of the `study_sessions` table, restricted to the
columns the claims are about.  On insertion `completed` takes its SQL
default `FALSE` and `actual_duration` is NULL. -/
structure SessionRowDB where
  id : Nat
  timer_type : Option String
  planned_duration : Option Int
  start_time : Option Int
  completed : Bool
  actual_duration : Option Int
deriving DecidableEq

/-- Store mutations issued against `Database`, in call order. -/
inductive StoreCall
  | create (timer_type : Option String) (planned_duration : Option Int)
      (start_time : Option Int) (sid : Nat)
  | finalize (sid : Nat) (completed : Bool) (actual_duration : Int)
deriving DecidableEq

/-- The persistence store: row-id counter, session rows, and the log of
`start_session` / `end_session` calls. -/
structure Store where
  next_id : Nat
  sessions : List SessionRowDB
  log : List StoreCall
deriving DecidableEq

/-- `Database.start_session` (src/config/database.py lines 372-440):
inserts one row and returns its id. -/
def Store.start_session (s : Store) (timer_type : Option String)
    (planned_duration : Option Int) (start_time : Option Int) : Nat × Store :=
  (s.next_id,
   { next_id := s.next_id + 1
     sessions := s.sessions ++ [⟨s.next_id, timer_type, planned_duration, start_time, false, none⟩]
     log := s.log ++ [StoreCall.create timer_type planned_duration start_time s.next_id] })

/-- `Database.end_session` (src/config/database.py lines 441-493):
updates `completed` and `actual_duration` of the addressed row. -/
def Store.end_session (s : Store) (sid : Nat) (completed : Bool)
    (actual_duration : Int) : Store :=
  { s with
    sessions := s.sessions.map fun r =>
      if r.id = sid then { r with completed := completed, actual_duration := some actual_duration }
      else r
    log := s.log ++ [StoreCall.finalize sid completed actual_duration] }

/-- The pending-run fields of `MainWindow`
(src/ui/main_window.py lines 188-190). -/
structure MainWindow where
  current_timer_type : Option String
  current_planned_duration : Option Int
  current_timer_start_time : Option Int
deriving DecidableEq

/-- `MainWindow.on_timer_started` (src/ui/main_window.py lines 399-410):
records the pending run, touches no store. -/
def MainWindow.on_timer_started (_m : MainWindow) (timer_type : String)
    (planned_duration : Int) (start_time : Int) : MainWindow :=
  { current_timer_type := some timer_type
    current_planned_duration := some planned_duration
    current_timer_start_time := some start_time }

/-- `MainWindow.on_timer_finished` (src/ui/main_window.py lines 412-449),
happy path (no persistence exceptions).  Only the `study`-with-positive-
duration branch touches the store or the pending fields; the
`auto_completed` flag is used only for the notification sound and never
reaches the store. -/
def MainWindow.on_timer_finished (m : MainWindow) (store : Store)
    (timer_type : String) (duration : Int) (_auto_completed : Bool) :
    MainWindow × Store :=
  if timer_type = "study" ∧ duration > 0 then
    let p := store.start_session m.current_timer_type m.current_planned_duration
      m.current_timer_start_time
    let store2 := p.2.end_session p.1 true duration
    (⟨none, none, none⟩, store2)
  else (m, store)

/-- The wired application: widget, coordinator, store, plus the full
list of widget events emitted so far. -/
structure AppSystem where
  widget : TimerWidget
  window : MainWindow
  store : Store
  wlog : List WEvent
deriving DecidableEq

/-- Dispatch of one widget signal to the `MainWindow` slots
(connections at src/ui/main_window.py lines 368-369). -/
def AppSystem.handle_event (s : AppSystem) (ev : WEvent) : AppSystem :=
  match ev with
  | WEvent.timer_started ty pd st =>
      { s with window := s.window.on_timer_started ty pd st }
  | WEvent.timer_finished ty dur auto =>
      let p := s.window.on_timer_finished s.store ty dur auto
      { s with window := p.1, store := p.2 }

/-- User-visible operations on the running application.  `start_click`
covers both the initial start and resume (the widget's start/pause
button calls `start_timer` in both cases); `tick` is one firing of the
widget's 1-second QTimer. -/
inductive UserOp
  | start_click (now : Int)
  | pause_click (now : Int)
  | stop_click (now : Int)
  | tick
deriving DecidableEq

/-- Install a widget-operation result and deliver its emitted events. -/
def AppSystem.apply_widget (s : AppSystem) (p : TimerWidget × List WEvent) :
    AppSystem :=
  p.2.foldl AppSystem.handle_event { s with widget := p.1, wlog := s.wlog ++ p.2 }

/-- One application step. -/
def AppSystem.step (s : AppSystem) : UserOp → AppSystem
  | UserOp.start_click now => s.apply_widget (s.widget.start_timer now)
  | UserOp.pause_click now => s.apply_widget (s.widget.pause_timer now)
  | UserOp.stop_click now => s.apply_widget (s.widget.stop_timer now)
  | UserOp.tick => s.apply_widget s.widget.update_time

/-- Run a list of operations. -/
def AppSystem.run (s : AppSystem) (ops : List UserOp) : AppSystem :=
  ops.foldl AppSystem.step s

/-- Fresh application showing timer type `timer_type` with duration
`duration`; SQLite row ids start at 1. -/
def initSystem (timer_type : String) (duration : Int) : AppSystem :=
  { widget := initWidget timer_type duration
    window := ⟨none, none, none⟩
    store := { next_id := 1, sessions := [], log := [] }
    wlog := [] }

/-- Number of `timer_finished` events in a widget event list. -/
def wfinished_count (l : List WEvent) : Nat :=
  (l.filter fun e =>
    match e with
    | WEvent.timer_finished _ _ _ => true
    | _ => false).length

/-!
Daily aggregate recomputation, from `Database._update_daily_stats`
(src/config/database.py lines 793-853).  A session row is reduced to
the columns the SQL reads; SQL `AVG` becomes rational division.
-/

/-- One `study_sessions` row of the target date, restricted to the
columns `_update_daily_stats` reads. -/
structure StudySessionRow where
  timer_type : String
  actual_duration : Option Int
  completed : Bool
deriving DecidableEq

/-- The SQL `WHERE actual_duration IS NOT NULL` filter. -/
def valid_rows (rows : List StudySessionRow) : List StudySessionRow :=
  rows.filter fun r => r.actual_duration.isSome

/-- The rows of one `GROUP BY timer_type` group. -/
def rows_of_type (rows : List StudySessionRow) (timer_type : String) :
    List StudySessionRow :=
  rows.filter fun r => r.timer_type = timer_type

/-- The distinct timer types produced by `GROUP BY timer_type` over the
filtered rows. -/
def group_types (rows : List StudySessionRow) : List String :=
  ((valid_rows rows).map fun r => r.timer_type).dedup

/-- `actual_duration` of a row known to be non-NULL (0 for NULL,
matching SQL arithmetic over the filtered rows). -/
def row_duration (r : StudySessionRow) : Int :=
  r.actual_duration.getD 0

/-- `SUM(CASE WHEN completed THEN actual_duration ELSE 0 END)`. -/
def completed_time (rows : List StudySessionRow) : Int :=
  (rows.map fun r => if r.completed then row_duration r else 0).sum

/-- `AVG(CASE WHEN completed THEN 1.0 ELSE 0.0 END)`. -/
def completion_rate (rows : List StudySessionRow) : ℚ :=
  (rows.map fun r => if r.completed then (1 : ℚ) else 0).sum / (rows.length : ℚ)

/-- One `daily_stats` row. -/
structure DailyStats where
  total_study_time : Int
  total_rest_time : Int
  session_count : Nat
  completion_rate : ℚ
deriving DecidableEq

/-- Accumulator of the `for stat in type_stats` loop in
`_update_daily_stats`. -/
structure StatsAcc where
  total_study_time : Int
  total_rest_time : Int
  total_sessions : Nat
  total_completion_rate : ℚ
deriving DecidableEq

/-- One iteration of the `for stat in type_stats` loop. -/
def stats_step (vrows : List StudySessionRow) (acc : StatsAcc) (timer_type : String) :
    StatsAcc :=
  let g := rows_of_type vrows timer_type
  let ct := completed_time g
  let acc1 :=
    if timer_type = "study" then
      { acc with total_study_time := acc.total_study_time + ct }
    else if timer_type = "rest" then
      { acc with total_rest_time := acc.total_rest_time + ct }
    else acc
  { acc1 with total_sessions := acc1.total_sessions + g.length
              total_completion_rate := acc1.total_completion_rate + completion_rate g }

/-- The aggregate `_update_daily_stats` computes for a date from its
session rows (the per-type query followed by the accumulation loop and
the final average). -/
def compute_daily_stats (rows : List StudySessionRow) : DailyStats :=
  let vrows := valid_rows rows
  let types := group_types rows
  let acc := types.foldl (stats_step vrows) ⟨0, 0, 0, 0⟩
  { total_study_time := acc.total_study_time
    total_rest_time := acc.total_rest_time
    session_count := acc.total_sessions
    completion_rate :=
      if types = [] then 0 else acc.total_completion_rate / (types.length : ℚ) }

/-- The final `INSERT OR REPLACE INTO daily_stats`: the aggregate row of
the date is replaced wholesale.  Dates are opaque integers here. -/
def upsert_daily_stats (tbl : Int → Option DailyStats) (d : Int)
    (rows : List StudySessionRow) : Int → Option DailyStats :=
  fun x => if x = d then some (compute_daily_stats rows) else tbl x

/-- One call into `FocusTimer`, with its wall-clock instant. -/
inductive TimerCall
  | start_call (now : Int) (timer_type : String) (duration : Int) (session_id : Option Int)
  | pause_call (now : Int)
  | resume_call (now : Int)
  | stop_call (now : Int) (completed : Bool)
  | tick_call (now : Int)
  | add_call (seconds : Int)
  | reset_call
deriving DecidableEq

/-- Apply one call to the timer, keeping only the state. -/
def FocusTimer.apply_call (t : FocusTimer) : TimerCall → FocusTimer
  | TimerCall.start_call now ty d sid => (t.start now ty d sid).timer
  | TimerCall.pause_call now => (t.pause now).timer
  | TimerCall.resume_call now => (t.resume now).timer
  | TimerCall.stop_call now c => (t.stop now c).timer
  | TimerCall.tick_call now => (t.on_timer_tick now).1
  | TimerCall.add_call s => (t.add_time s).timer
  | TimerCall.reset_call => t.reset.1

/-- Apply a sequence of calls. -/
def FocusTimer.apply_calls (t : FocusTimer) (calls : List TimerCall) : FocusTimer :=
  calls.foldl FocusTimer.apply_call t

/-- The pause-accounting scenario of the spec: a 20-second study run
started at T0=0, ticking once per running second, paused at T0+5,
resumed at T0+8, stopped completed at T0+15. -/
def pause_scenario : List TimerCall :=
  [TimerCall.start_call 0 "study" 20 none,
   TimerCall.tick_call 1, TimerCall.tick_call 2, TimerCall.tick_call 3,
   TimerCall.tick_call 4, TimerCall.tick_call 5,
   TimerCall.pause_call 5,
   TimerCall.resume_call 8,
   TimerCall.tick_call 9, TimerCall.tick_call 10, TimerCall.tick_call 11,
   TimerCall.tick_call 12, TimerCall.tick_call 13, TimerCall.tick_call 14,
   TimerCall.tick_call 15,
   TimerCall.stop_call 15 true]

/-- The timing invariant of the state machine. -/
def timer_inv (t : FocusTimer) : Prop :=
  t.elapsed_time + t.remaining_time = t.total_duration

/-- Mid-run user operations: everything except a stop click. -/
def mid_op (op : UserOp) : Bool :=
  match op with
  | UserOp.stop_click _ => false
  | _ => true

/-!  Theorems.  -/

theorem timer_inv_init : timer_inv initTimer := by
  simp [timer_inv, initTimer]

theorem timer_inv_start (t : FocusTimer) (now : Int) (ty : String) (d : Int)
    (sid : Option Int) (h : timer_inv t) :
    timer_inv (t.start now ty d sid).timer := by
  unfold FocusTimer.start FocusTimer.set_state
  split
  · exact h
  · dsimp only
    split <;> simp [timer_inv]

theorem timer_inv_pause (t : FocusTimer) (now : Int) (h : timer_inv t) :
    timer_inv (t.pause now).timer := by
  unfold FocusTimer.pause FocusTimer.set_state
  split
  · exact h
  · dsimp only
    split <;> exact h

theorem timer_inv_resume (t : FocusTimer) (now : Int) (h : timer_inv t) :
    timer_inv (t.resume now).timer := by
  unfold FocusTimer.resume FocusTimer.set_state
  split
  · exact h
  · dsimp only
    cases hp : t.pause_time <;> dsimp only <;> split <;> exact h

theorem timer_inv_stop (t : FocusTimer) (now : Int) (c : Bool) (h : timer_inv t) :
    timer_inv (t.stop now c).timer := by
  simp only [timer_inv] at h ⊢
  rcases t with ⟨st, ty, td, rt, et, si, sti, pt, tpd, qa⟩
  simp only at h
  cases st <;> cases c <;> cases pt <;>
    simp [FocusTimer.stop, FocusTimer.set_state, FocusTimer.reset_state] <;>
    omega

theorem timer_inv_tick (t : FocusTimer) (now : Int) (h : timer_inv t) :
    timer_inv (t.on_timer_tick now).1 := by
  unfold FocusTimer.on_timer_tick
  split
  · exact h
  · dsimp only
    split
    · exact timer_inv_stop _ now true (by simp [timer_inv] at h ⊢; omega)
    · simp [timer_inv] at h ⊢
      omega

theorem timer_inv_reset (t : FocusTimer) :
    timer_inv t.reset.1 := by
  unfold FocusTimer.reset FocusTimer.reset_state FocusTimer.set_state
  by_cases h : t.state = TimerState.idle <;> simp [timer_inv, h]

theorem timer_inv_add_time (t : FocusTimer) (s : Int) (h : timer_inv t) :
    timer_inv (t.add_time s).timer := by
  unfold FocusTimer.add_time
  split
  · simp [timer_inv]
  · exact h

theorem timer_inv_reachable (t : FocusTimer) (h : ReachableTimer t) : timer_inv t := by
  induction h with
  | init => exact timer_inv_init
  | start t now ty d sid _ ih => exact timer_inv_start t now ty d sid ih
  | pause t now _ ih => exact timer_inv_pause t now ih
  | resume t now _ ih => exact timer_inv_resume t now ih
  | stop t now c _ ih => exact timer_inv_stop t now c ih
  | tick t now _ ih => exact timer_inv_tick t now ih
  | reset t _ _ih => exact timer_inv_reset t
  | add_time t s _ ih => exact timer_inv_add_time t s ih

/-- C2: in every reachable state of the timer state machine that is
Running or Paused — in particular after every `start`, `tick`,
`add_time`, `pause`, `resume` — the equation
`elapsed_time + remaining_time = total_duration` holds. -/
theorem claim_C2_elapsed_plus_remaining_eq_total (t : FocusTimer)
    (h : ReachableTimer t)
    (_hs : t.state = TimerState.running ∨ t.state = TimerState.paused) :
    t.elapsed_time + t.remaining_time = t.total_duration :=
  timer_inv_reachable t h

/-- Witness for C2 at the concrete running state reached by starting a
3-second study run. -/
theorem claim_C2_witness :
    (initTimer.start 0 "study" 3 none).timer.elapsed_time +
      (initTimer.start 0 "study" 3 none).timer.remaining_time =
      (initTimer.start 0 "study" 3 none).timer.total_duration :=
  claim_C2_elapsed_plus_remaining_eq_total _
    (ReachableTimer.start initTimer 0 "study" 3 none ReachableTimer.init)
    (Or.inl (by decide))

/-- C9: `add_time` fails with no state change outside Running/Paused;
otherwise it sets remaining to `max 0 (remaining + delta)`, adds the
actually applied (possibly clamped) delta to the total, recomputes
elapsed as total minus remaining, and never leaves remaining
negative — even when a negative delta shrinks the total below the
originally planned value. -/
theorem claim_C9_add_time (t : FocusTimer) (s : Int) :
    (¬ (t.state = TimerState.running ∨ t.state = TimerState.paused) →
      t.add_time s = ⟨false, t, []⟩) ∧
    ((t.state = TimerState.running ∨ t.state = TimerState.paused) →
      (t.add_time s).ok = true ∧
      (t.add_time s).timer.remaining_time = max 0 (t.remaining_time + s) ∧
      (t.add_time s).timer.total_duration =
        t.total_duration + (max 0 (t.remaining_time + s) - t.remaining_time) ∧
      (t.add_time s).timer.elapsed_time =
        (t.add_time s).timer.total_duration - (t.add_time s).timer.remaining_time ∧
      0 ≤ (t.add_time s).timer.remaining_time) := by
  constructor
  · intro h
    simp [FocusTimer.add_time, h]
  · intro h
    simp [FocusTimer.add_time, h, le_max_left]

/-- Witness for C9: removing 10 seconds from a running 5-second run
clamps remaining at zero. -/
theorem claim_C9_witness :
    ((initTimer.start 0 "study" 5 none).timer.add_time (-10)).timer.remaining_time =
      max 0 ((initTimer.start 0 "study" 5 none).timer.remaining_time + (-10)) ∧
    0 ≤ ((initTimer.start 0 "study" 5 none).timer.add_time (-10)).timer.remaining_time := by
  have h := (claim_C9_add_time (initTimer.start 0 "study" 5 none).timer (-10)).2
    (Or.inl (by decide))
  exact ⟨h.2.1, h.2.2.2.2⟩

/-- C6: a tick delivered in Paused or Idle changes nothing and emits
nothing; a tick in Running decrements remaining by 1 and increments
elapsed by 1; and a 3-second run finishes by itself after exactly 3
ticks, emitting `finished` with elapsed 3 and completed true, with no
explicit stop call. -/
theorem claim_C6_tick_behaviour :
    (∀ (t : FocusTimer) (now : Int),
      t.state = TimerState.paused ∨ t.state = TimerState.idle →
      t.on_timer_tick now = (t, [])) ∧
    (∀ (t : FocusTimer) (now : Int), t.state = TimerState.running →
      (t.on_timer_tick now).1.remaining_time = t.remaining_time - 1 ∧
      (t.on_timer_tick now).1.elapsed_time = t.elapsed_time + 1) ∧
    ((((initTimer.start 0 "study" 3 none).timer.on_timer_tick 1).1.on_timer_tick 2).1.on_timer_tick 3).1.state
        = TimerState.finished ∧
    ((((initTimer.start 0 "study" 3 none).timer.on_timer_tick 1).1.on_timer_tick 2).1.on_timer_tick 3).2.getLast?
        = some (TEvent.finished "study" 3 true) := by
  refine ⟨?_, ?_, by decide, by decide⟩
  · intro t now h
    rcases h with h | h <;> simp [FocusTimer.on_timer_tick, h]
  · intro t now h
    rcases t with ⟨st, ty, td, rt, et, si, sti, pt, tpd, qa⟩
    simp only at h
    subst h
    cases pt <;>
      simp [FocusTimer.on_timer_tick, FocusTimer.stop, FocusTimer.set_state,
        FocusTimer.emit_time_signals] <;>
      split <;> simp

/-- Witness for C6: a tick on a freshly paused run is a no-op, and a
tick on a freshly started run moves one second. -/
theorem claim_C6_witness :
    (((initTimer.start 0 "study" 3 none).timer.pause 1).timer.on_timer_tick 2 =
      (((initTimer.start 0 "study" 3 none).timer.pause 1).timer, [])) ∧
    ((initTimer.start 0 "study" 3 none).timer.on_timer_tick 1).1.remaining_time =
      (initTimer.start 0 "study" 3 none).timer.remaining_time - 1 := by
  refine ⟨claim_C6_tick_behaviour.1 _ 2 (Or.inl (by decide)),
    (claim_C6_tick_behaviour.2.1 _ 1 (by decide)).1⟩

/-- C4: `stop` fails from Idle with no state change and no event; from
every other state it returns true, ends in Finished when completed and
in the fully cleared initial Idle state when not, folds an in-progress
pause interval into `total_pause_duration` (observable in the Finished
state), and its event list ends with its unique `finished` event
carrying `(timer_type, elapsed_time, completed)`. -/
theorem claim_C4_stop (t : FocusTimer) (now : Int) (c : Bool) :
    (t.state = TimerState.idle → t.stop now c = ⟨false, t, []⟩) ∧
    (t.state ≠ TimerState.idle →
      (t.stop now c).ok = true ∧
      (c = true → (t.stop now c).timer.state = TimerState.finished) ∧
      (c = false → (t.stop now c).timer = initTimer) ∧
      (c = true → t.state = TimerState.paused → ∀ p, t.pause_time = some p →
        (t.stop now c).timer.total_pause_duration =
          t.total_pause_duration + (now - p)) ∧
      (t.stop now c).events.getLast? =
        some (TEvent.finished t.timer_type t.elapsed_time c) ∧
      tfinished_count (t.stop now c).events = 1) := by
  constructor
  · intro h
    simp [FocusTimer.stop, h]
  · intro h
    rcases t with ⟨st, ty, td, rt, et, si, sti, pt, tpd, qa⟩
    simp only at h
    cases st <;> cases c <;> cases pt <;>
      simp_all [FocusTimer.stop, FocusTimer.set_state, FocusTimer.reset_state,
        initTimer, tfinished_count]

/-- Witness for C4: stopping a freshly started run uncompleted returns
to the cleared initial state; stopping from Idle fails. -/
theorem claim_C4_witness :
    ((initTimer.start 0 "study" 5 none).timer.stop 2 false).timer = initTimer ∧
    initTimer.stop 0 true = ⟨false, initTimer, []⟩ := by
  refine ⟨((claim_C4_stop (initTimer.start 0 "study" 5 none).timer 2 false).2
      (by decide)).2.2.1 rfl,
    (claim_C4_stop initTimer 0 true).1 (by decide)⟩

/-- C10: from Running with remaining 0 and elapsed equal to total (a
state `add_time` clamping can produce), one tick drives remaining to -1
and finishes the run: the emitted trace shows remaining -1 at the moment
`finished` fires, and `finished` carries completed true and elapsed
total+1; `add_time` itself never changes the state and never emits
`finished`. -/
theorem claim_C10_clamped_tick (t : FocusTimer) (now : Int)
    (hr : t.state = TimerState.running) (h0 : t.remaining_time = 0)
    (he : t.elapsed_time = t.total_duration) :
    (t.on_timer_tick now).1.remaining_time = -1 ∧
    (t.on_timer_tick now).1.state = TimerState.finished ∧
    (t.on_timer_tick now).2 =
      [TEvent.time_updated (-1) t.total_duration, TEvent.progress_updated,
       TEvent.state_changed TimerState.finished,
       TEvent.finished t.timer_type (t.total_duration + 1) true] ∧
    (∀ s : Int, (t.add_time s).timer.state = t.state ∧
      tfinished_count (t.add_time s).events = 0) := by
  rcases t with ⟨st, ty, td, rt, et, si, sti, pt, tpd, qa⟩
  simp only at hr h0 he
  subst hr h0 he
  refine ⟨?_, ?_, ?_, ?_⟩
  · simp [FocusTimer.on_timer_tick, FocusTimer.stop, FocusTimer.set_state,
      FocusTimer.emit_time_signals]
  · simp [FocusTimer.on_timer_tick, FocusTimer.stop, FocusTimer.set_state,
      FocusTimer.emit_time_signals]
  · simp [FocusTimer.on_timer_tick, FocusTimer.stop, FocusTimer.set_state,
      FocusTimer.emit_time_signals]
  · intro s
    simp [FocusTimer.add_time, tfinished_count, FocusTimer.emit_time_signals]

/-- Witness for C10: start a 3-second study run, tick once, shrink by
two seconds (clamping remaining to 0 with elapsed 1 = new total 1), then
deliver the killing tick. -/
theorem claim_C10_witness :
    (((((initTimer.start 0 "study" 3 none).timer.on_timer_tick 1).1.add_time (-2)).timer.on_timer_tick 2).1.remaining_time = -1) ∧
    (((((initTimer.start 0 "study" 3 none).timer.on_timer_tick 1).1.add_time (-2)).timer.on_timer_tick 2).1.state = TimerState.finished) := by
  have h := claim_C10_clamped_tick
    (((initTimer.start 0 "study" 3 none).timer.on_timer_tick 1).1.add_time (-2)).timer 2
    (by decide) (by decide) (by decide)
  exact ⟨h.1, h.2.1⟩

/-- C7: `resume` from Paused adds `now - pause_time` to
`total_pause_duration` and clears `pause_time`; a tick during Paused
never advances elapsed time; and the concrete 20-second scenario
(start at T0, pause at T0+5, resume at T0+8, stop completed at T0+15,
one tick per running second) ends with elapsed 12, remaining 8 and
accumulated pause 3. -/
theorem claim_C7_pause_accounting :
    (∀ (t : FocusTimer) (now p : Int), t.state = TimerState.paused →
      t.pause_time = some p →
      (t.resume now).ok = true ∧
      (t.resume now).timer.state = TimerState.running ∧
      (t.resume now).timer.total_pause_duration =
        t.total_pause_duration + (now - p) ∧
      (t.resume now).timer.pause_time = none) ∧
    (∀ (t : FocusTimer) (now : Int), t.state = TimerState.paused →
      (t.on_timer_tick now).1.elapsed_time = t.elapsed_time) ∧
    (initTimer.apply_calls pause_scenario).elapsed_time = 12 ∧
    (initTimer.apply_calls pause_scenario).remaining_time = 8 ∧
    (initTimer.apply_calls pause_scenario).total_pause_duration = 3 := by
  refine ⟨?_, ?_, by decide, by decide, by decide⟩
  · intro t now p hs hp
    rcases t with ⟨st, ty, td, rt, et, si, sti, pt, tpd, qa⟩
    simp only at hs hp
    subst hs
    subst hp
    simp [FocusTimer.resume, FocusTimer.set_state]
  · intro t now hs
    simp [FocusTimer.on_timer_tick, hs]

/-- Witness for C7: resuming the concretely paused 20-second run at
T0+8 accumulates 3 seconds of pause. -/
theorem claim_C7_witness :
    ((initTimer.apply_calls (List.take 7 pause_scenario)).resume 8).timer.total_pause_duration =
      (initTimer.apply_calls (List.take 7 pause_scenario)).total_pause_duration + (8 - 5) ∧
    ((initTimer.apply_calls (List.take 7 pause_scenario)).on_timer_tick 6).1.elapsed_time =
      (initTimer.apply_calls (List.take 7 pause_scenario)).elapsed_time := by
  refine ⟨(claim_C7_pause_accounting.1 _ 8 5 (by decide) (by decide)).2.2.1,
    claim_C7_pause_accounting.2.1 _ 6 (by decide)⟩

theorem stats_foldl_spec (vrows : List StudySessionRow) (types : List String) :
    ∀ acc : StatsAcc,
    types.foldl (stats_step vrows) acc =
      ⟨acc.total_study_time +
        (types.map fun ty => if ty = "study" then completed_time (rows_of_type vrows ty) else 0).sum,
       acc.total_rest_time +
        (types.map fun ty => if ty = "rest" then completed_time (rows_of_type vrows ty) else 0).sum,
       acc.total_sessions + (types.map fun ty => (rows_of_type vrows ty).length).sum,
       acc.total_completion_rate +
        (types.map fun ty => completion_rate (rows_of_type vrows ty)).sum⟩ := by
  induction types with
  | nil => intro acc; simp
  | cons ty rest ih =>
      intro acc
      simp only [List.foldl_cons, List.map_cons, List.sum_cons, ih]
      unfold stats_step
      by_cases h1 : ty = "study"
      · subst h1
        simp [StatsAcc.mk.injEq]
        all_goals and_intros
        all_goals first | trivial | ring | omega
      · by_cases h2 : ty = "rest"
        · subst h2
          simp [StatsAcc.mk.injEq, h1]
          all_goals and_intros
          all_goals first | trivial | ring | omega
        · simp [StatsAcc.mk.injEq, h1, h2]
          all_goals and_intros
          all_goals first | trivial | ring | omega

theorem sum_if_sel (f : String → Int) (a : String) :
    ∀ types : List String, types.Nodup →
    (types.map fun ty => if ty = a then f ty else 0).sum =
      if a ∈ types then f a else 0 := by
  intro types
  induction types with
  | nil => intro _; simp
  | cons b rest ih =>
      intro h
      rcases List.nodup_cons.mp h with ⟨hb, hr⟩
      simp only [List.map_cons, List.sum_cons, ih hr, List.mem_cons]
      by_cases hba : b = a
      · subst hba
        simp [hb]
      · simp [hba, Ne.symm hba]

theorem rows_of_type_nil_of_not_mem (rows : List StudySessionRow) (a : String)
    (h : a ∉ group_types rows) : rows_of_type (valid_rows rows) a = [] := by
  unfold group_types at h
  unfold rows_of_type
  rw [List.filter_eq_nil_iff]
  intro r hr
  simp only [decide_eq_true_eq]
  intro heq
  exact h (List.mem_dedup.mpr (List.mem_map.mpr ⟨r, hr, heq⟩))

/-- C8: the recomputed daily aggregate equals: study/rest totals as the
sums of `actual_duration` of completed sessions of those two types
(other types contribute to neither), daily session count as the sum of
per-type counts, daily completion rate as the unweighted mean of
per-type completion rates; the concrete two-study-session example gives
(900, 2, 1.0); and the full-replace upsert is idempotent. -/
theorem claim_C8_daily_aggregate :
    (∀ rows : List StudySessionRow,
      (compute_daily_stats rows).total_study_time =
        completed_time (rows_of_type (valid_rows rows) "study") ∧
      (compute_daily_stats rows).total_rest_time =
        completed_time (rows_of_type (valid_rows rows) "rest") ∧
      (compute_daily_stats rows).session_count =
        ((group_types rows).map fun ty => (rows_of_type (valid_rows rows) ty).length).sum ∧
      (compute_daily_stats rows).completion_rate =
        (if group_types rows = [] then 0 else
          ((group_types rows).map fun ty =>
            completion_rate (rows_of_type (valid_rows rows) ty)).sum /
            ((group_types rows).length : ℚ))) ∧
    compute_daily_stats
        [⟨"study", some 600, true⟩, ⟨"study", some 300, true⟩] =
      ⟨900, 0, 2, 1⟩ ∧
    (∀ (tbl : Int → Option DailyStats) (d : Int) (rows : List StudySessionRow),
      upsert_daily_stats (upsert_daily_stats tbl d rows) d rows =
        upsert_daily_stats tbl d rows) := by
  refine ⟨?_, by set_option maxRecDepth 4000 in with_unfolding_all decide, ?_⟩
  · intro rows
    have hnd : (group_types rows).Nodup := List.nodup_dedup _
    unfold compute_daily_stats
    simp only [stats_foldl_spec (valid_rows rows) (group_types rows) ⟨0, 0, 0, 0⟩]
    refine ⟨?_, ?_, by simp, by simp⟩
    · rw [show (0 : Int) + _ = _ from zero_add _,
        sum_if_sel (fun ty => completed_time (rows_of_type (valid_rows rows) ty)) "study"
          (group_types rows) hnd]
      split
      · rfl
      · rw [rows_of_type_nil_of_not_mem rows "study" (by assumption)]
        rfl
    · rw [show (0 : Int) + _ = _ from zero_add _,
        sum_if_sel (fun ty => completed_time (rows_of_type (valid_rows rows) ty)) "rest"
          (group_types rows) hnd]
      split
      · rfl
      · rw [rows_of_type_nil_of_not_mem rows "rest" (by assumption)]
        rfl
  · intro tbl d rows
    funext x
    unfold upsert_daily_stats
    by_cases hx : x = d <;> simp [hx]

theorem handle_event_wlog (s : AppSystem) (ev : WEvent) :
    (s.handle_event ev).wlog = s.wlog := by
  cases ev <;> simp [AppSystem.handle_event]

theorem foldl_handle_event_wlog (evs : List WEvent) :
    ∀ s : AppSystem, (evs.foldl AppSystem.handle_event s).wlog = s.wlog := by
  induction evs with
  | nil => intro s; rfl
  | cons e rest ih =>
      intro s
      rw [List.foldl_cons, ih, handle_event_wlog]

theorem apply_widget_wlog (s : AppSystem) (p : TimerWidget × List WEvent) :
    (s.apply_widget p).wlog = s.wlog ++ p.2 := by
  unfold AppSystem.apply_widget
  rw [foldl_handle_event_wlog]

theorem step_wlog_append (s : AppSystem) (op : UserOp) :
    ∃ evs, (s.step op).wlog = s.wlog ++ evs := by
  cases op <;> exact ⟨_, apply_widget_wlog _ _⟩

theorem run_wlog_append (ops : List UserOp) :
    ∀ s : AppSystem, ∃ evs, (s.run ops).wlog = s.wlog ++ evs := by
  induction ops with
  | nil => intro s; exact ⟨[], (List.append_nil _).symm⟩
  | cons op rest ih =>
      intro s
      obtain ⟨e1, h1⟩ := step_wlog_append s op
      obtain ⟨e2, h2⟩ := ih (s.step op)
      refine ⟨e1 ++ e2, ?_⟩
      show ((s.step op).run rest).wlog = _
      rw [h2, h1, List.append_assoc]

theorem wfinished_count_append (a b : List WEvent) :
    wfinished_count (a ++ b) = wfinished_count a + wfinished_count b := by
  unfold wfinished_count
  rw [List.filter_append, List.length_append]

theorem step_mid_preserves (s : AppSystem) (op : UserOp) (t0 : Int)
    (hmid : mid_op op = true)
    (hst : s.widget.start_time = some t0)
    (hnf : wfinished_count (s.step op).wlog = wfinished_count s.wlog) :
    (s.step op).widget.current_timer_type = s.widget.current_timer_type ∧
    (s.step op).widget.total_seconds = s.widget.total_seconds ∧
    (s.step op).widget.start_time = some t0 ∧
    (s.step op).window = s.window ∧
    (s.step op).store = s.store := by
  cases op with
  | start_click now =>
      by_cases hr : s.widget.remaining_seconds > 0
      · cases hp : s.widget.pause_time <;>
          simp [AppSystem.step, AppSystem.apply_widget, TimerWidget.start_timer,
            AppSystem.handle_event, hst, hr, hp]
      · simp [AppSystem.step, AppSystem.apply_widget, TimerWidget.start_timer, hst, hr]
  | pause_click now =>
      by_cases hrun : s.widget.is_running <;>
        simp [AppSystem.step, AppSystem.apply_widget, TimerWidget.pause_timer,
          AppSystem.handle_event, hst, hrun]
  | stop_click now => simp [mid_op] at hmid
  | tick =>
      have hw : (s.step UserOp.tick).wlog = s.wlog ++ (s.widget.update_time).2 :=
        apply_widget_wlog s _
      by_cases hr : s.widget.remaining_seconds > 0
      · by_cases hz : s.widget.remaining_seconds - 1 = 0
        · exfalso
          unfold TimerWidget.update_time at hw
          rw [if_pos hr] at hw
          simp only [hz, if_pos rfl] at hw
          rw [hw, wfinished_count_append] at hnf
          simp [wfinished_count] at hnf
        · simp [AppSystem.step, AppSystem.apply_widget, TimerWidget.update_time,
            AppSystem.handle_event, hst, hr, hz]
      · simp [AppSystem.step, AppSystem.apply_widget, TimerWidget.update_time, hst, hr]

theorem run_mids_preserves (t0 : Int) (mids : List UserOp) :
    ∀ s : AppSystem,
    (∀ op ∈ mids, mid_op op = true) →
    s.widget.start_time = some t0 →
    wfinished_count (s.run mids).wlog = wfinished_count s.wlog →
    (s.run mids).widget.current_timer_type = s.widget.current_timer_type ∧
    (s.run mids).widget.total_seconds = s.widget.total_seconds ∧
    (s.run mids).widget.start_time = some t0 ∧
    (s.run mids).window = s.window ∧
    (s.run mids).store = s.store := by
  induction mids with
  | nil =>
      intro s _ hst _
      exact ⟨rfl, rfl, hst, rfl, rfl⟩
  | cons op rest ih =>
      intro s hmid hst hnf
      have hrun : s.run (op :: rest) = (s.step op).run rest := rfl
      obtain ⟨e1, h1⟩ := step_wlog_append s op
      obtain ⟨e2, h2⟩ := run_wlog_append rest (s.step op)
      rw [hrun, h2, h1, wfinished_count_append, wfinished_count_append] at hnf
      have he1 : wfinished_count e1 = 0 := by omega
      have hstep := step_mid_preserves s op t0 (hmid op (List.mem_cons_self op rest)) hst
        (by rw [h1, wfinished_count_append, he1]; omega)
      have hrest := ih (s.step op) (fun o ho => hmid o (List.mem_cons_of_mem op ho))
        hstep.2.2.1
        (by rw [h2, h1, wfinished_count_append, wfinished_count_append, he1]; omega)
      rw [hrun]
      exact ⟨hrest.1.trans hstep.1, hrest.2.1.trans hstep.2.1, hrest.2.2.1,
        hrest.2.2.2.1.trans hstep.2.2.2.1, hrest.2.2.2.2.trans hstep.2.2.2.2⟩

/-- C1: deferred, exactly-once recording.  A start click never mutates
the store: it only records the pending `(type, planned duration, start
time)` triple in the coordinator.  For any run consisting of a start
click, pause/resume/tick operations during which no finished event
fires, and a final stop — either a manual stop click with positive
elapsed time or the completing tick — the store log of the whole run is
exactly one `create_session` followed by one `finalize_session` with
`completed = true` and `actual_duration` equal to the run's elapsed
time. -/
theorem claim_C1_exactly_once_recording (d t0 t1 : Int) (mids : List UserOp)
    (hd : 0 < d)
    (hmid : ∀ op ∈ mids, mid_op op = true)
    (hnf : wfinished_count
      (((initSystem "study" d).step (UserOp.start_click t0)).run mids).wlog = 0) :
    (∀ (s : AppSystem) (now : Int), (s.step (UserOp.start_click now)).store = s.store) ∧
    ((initSystem "study" d).step (UserOp.start_click t0)).store.log = [] ∧
    ((initSystem "study" d).step (UserOp.start_click t0)).window =
      ⟨some "study", some d, some t0⟩ ∧
    (0 < d - (((initSystem "study" d).step (UserOp.start_click t0)).run mids).widget.remaining_seconds →
      ((((initSystem "study" d).step (UserOp.start_click t0)).run mids).step
          (UserOp.stop_click t1)).store.log =
        [StoreCall.create (some "study") (some d) (some t0) 1,
         StoreCall.finalize 1 true
           (d - (((initSystem "study" d).step (UserOp.start_click t0)).run mids).widget.remaining_seconds)]) ∧
    ((((initSystem "study" d).step (UserOp.start_click t0)).run mids).widget.remaining_seconds = 1 →
      ((((initSystem "study" d).step (UserOp.start_click t0)).run mids).step
          UserOp.tick).store.log =
        [StoreCall.create (some "study") (some d) (some t0) 1,
         StoreCall.finalize 1 true d]) := by
  have hs1ty : ((initSystem "study" d).step (UserOp.start_click t0)).widget.current_timer_type = "study" := by
    simp [initSystem, initWidget, AppSystem.step, AppSystem.apply_widget,
      TimerWidget.start_timer, AppSystem.handle_event, hd]
  have hs1tot : ((initSystem "study" d).step (UserOp.start_click t0)).widget.total_seconds = d := by
    simp [initSystem, initWidget, AppSystem.step, AppSystem.apply_widget,
      TimerWidget.start_timer, AppSystem.handle_event, hd]
  have hs1st : ((initSystem "study" d).step (UserOp.start_click t0)).widget.start_time = some t0 := by
    simp [initSystem, initWidget, AppSystem.step, AppSystem.apply_widget,
      TimerWidget.start_timer, AppSystem.handle_event, hd]
  have hs1win : ((initSystem "study" d).step (UserOp.start_click t0)).window =
      ⟨some "study", some d, some t0⟩ := by
    simp [initSystem, initWidget, AppSystem.step, AppSystem.apply_widget,
      TimerWidget.start_timer, AppSystem.handle_event, MainWindow.on_timer_started, hd]
  have hs1sto : ((initSystem "study" d).step (UserOp.start_click t0)).store =
      ⟨1, [], []⟩ := by
    simp [initSystem, initWidget, AppSystem.step, AppSystem.apply_widget,
      TimerWidget.start_timer, AppSystem.handle_event, hd]
  have hs1wlog : ((initSystem "study" d).step (UserOp.start_click t0)).wlog =
      [WEvent.timer_started "study" d t0] := by
    simp [initSystem, initWidget, AppSystem.step, AppSystem.apply_widget,
      TimerWidget.start_timer, AppSystem.handle_event, hd]
  have hcnt : wfinished_count
      ((((initSystem "study" d).step (UserOp.start_click t0)).run mids)).wlog =
      wfinished_count ((initSystem "study" d).step (UserOp.start_click t0)).wlog := by
    rw [hnf, hs1wlog]
    simp [wfinished_count]
  have h2 := run_mids_preserves t0 mids
    ((initSystem "study" d).step (UserOp.start_click t0)) hmid hs1st hcnt
  obtain ⟨hty, htot, hstt, hwin, hsto⟩ := h2
  rw [hs1ty] at hty
  rw [hs1tot] at htot
  rw [hs1win] at hwin
  rw [hs1sto] at hsto
  refine ⟨?_, by rw [hs1sto], hs1win, ?_, ?_⟩
  · intro s now
    by_cases hr : s.widget.remaining_seconds > 0
    · cases hso : s.widget.start_time with
      | none =>
          simp [AppSystem.step, AppSystem.apply_widget, TimerWidget.start_timer,
            AppSystem.handle_event, hr, hso]
      | some p =>
          cases hp : s.widget.pause_time <;>
            simp [AppSystem.step, AppSystem.apply_widget, TimerWidget.start_timer,
              AppSystem.handle_event, hr, hso, hp]
    · simp [AppSystem.step, AppSystem.apply_widget, TimerWidget.start_timer, hr]
  · intro hp
    have hp2 : (((initSystem "study" d).step (UserOp.start_click t0)).run mids).widget.remaining_seconds < d := by
      omega
    set s2 := ((initSystem "study" d).step (UserOp.start_click t0)).run mids with hs2
    simp [AppSystem.step, AppSystem.apply_widget, TimerWidget.stop_timer,
      AppSystem.handle_event, MainWindow.on_timer_finished, Store.start_session,
      Store.end_session, hty, htot, hstt, hwin, hsto, hp, hp2]
  · intro hz
    set s2 := ((initSystem "study" d).step (UserOp.start_click t0)).run mids with hs2
    simp [AppSystem.step, AppSystem.apply_widget, TimerWidget.update_time,
      AppSystem.handle_event, MainWindow.on_timer_finished, Store.start_session,
      Store.end_session, hty, htot, hstt, hwin, hsto, hz, hd]

/-- Witness for C1: a 2-second study run with one mid-run tick, ended
once by a manual stop (elapsed 1) and once by the completing tick,
each yielding exactly one create/finalize pair. -/
theorem claim_C1_witness :
    (((((initSystem "study" 2).step (UserOp.start_click 0)).run [UserOp.tick]).step
        (UserOp.stop_click 5)).store.log =
      [StoreCall.create (some "study") (some 2) (some 0) 1,
       StoreCall.finalize 1 true 1]) ∧
    (((((initSystem "study" 2).step (UserOp.start_click 0)).run [UserOp.tick]).step
        UserOp.tick).store.log =
      [StoreCall.create (some "study") (some 2) (some 0) 1,
       StoreCall.finalize 1 true 2]) := by
  have h := claim_C1_exactly_once_recording 2 0 5 [UserOp.tick] (by decide)
    (by decide) (by decide)
  have hr : ((((initSystem "study" 2).step (UserOp.start_click 0)).run
      [UserOp.tick])).widget.remaining_seconds = 1 := by decide
  have hm := h.2.2.2.1 (by decide)
  rw [hr] at hm
  refine ⟨by simpa using hm, h.2.2.2.2 (by decide)⟩

/-- Counterexample to C3: a 10-second study run stopped early by the
user after 3 ticks (the countdown never reached zero: the finished
event carries `auto_completed = false`) is nevertheless persisted with
`completed = true`. -/
theorem claim_C3_counterexample :
    ((initSystem "study" 10).run
        [UserOp.start_click 0, UserOp.tick, UserOp.tick, UserOp.tick,
         UserOp.stop_click 5]).wlog =
      [WEvent.timer_started "study" 10 0,
       WEvent.timer_finished "study" 3 false] ∧
    ((initSystem "study" 10).run
        [UserOp.start_click 0, UserOp.tick, UserOp.tick, UserOp.tick,
         UserOp.stop_click 5]).store.sessions =
      [⟨1, some "study", some 10, some 0, true, some 3⟩] := by
  decide

/-- C3 amended: `on_timer_finished` either leaves the store alone or
issues a create/finalize pair whose `completed` flag is `true`,
regardless of the `auto_completed` flag of the finished event — early
stops are persisted as completed. -/
theorem claim_C3_amended_always_completed (m : MainWindow) (store : Store)
    (timer_type : String) (duration : Int) (auto_completed : Bool) :
    (m.on_timer_finished store timer_type duration auto_completed).2.log = store.log ∨
    (m.on_timer_finished store timer_type duration auto_completed).2.log =
      store.log ++
        [StoreCall.create m.current_timer_type m.current_planned_duration
          m.current_timer_start_time store.next_id,
         StoreCall.finalize store.next_id true duration] := by
  unfold MainWindow.on_timer_finished
  by_cases h : timer_type = "study" ∧ duration > 0
  · right
    simp [h, Store.start_session, Store.end_session]
  · left
    simp [h]

/-- Counterexample to C5: after a completed non-study run ("rest",
1 second), no store mutation occurs — but the coordinator's pending run
metadata is NOT cleared: it still holds the rest run's data. -/
theorem claim_C5_counterexample :
    ((initSystem "rest" 1).run [UserOp.start_click 0, UserOp.tick]).store.log = [] ∧
    ((initSystem "rest" 1).run [UserOp.start_click 0, UserOp.tick]).wlog =
      [WEvent.timer_started "rest" 1 0, WEvent.timer_finished "rest" 1 true] ∧
    ((initSystem "rest" 1).run [UserOp.start_click 0, UserOp.tick]).window =
      ⟨some "rest", some 1, some 0⟩ ∧
    ((initSystem "rest" 1).run [UserOp.start_click 0, UserOp.tick]).window ≠
      ⟨none, none, none⟩ := by
  decide

/-- C5 amended: on a finished event with zero elapsed time or with a
non-study type, no store mutation occurs, and the pending run metadata
is left unchanged (it is NOT cleared; clearing happens only on the
persisted study path). -/
theorem claim_C5_amended_no_persist_keeps_pending (m : MainWindow) (store : Store)
    (timer_type : String) (duration : Int) (auto_completed : Bool)
    (h : duration = 0 ∨ timer_type ≠ "study") :
    (m.on_timer_finished store timer_type duration auto_completed).2 = store ∧
    (m.on_timer_finished store timer_type duration auto_completed).1 = m := by
  unfold MainWindow.on_timer_finished
  have hc : ¬ (timer_type = "study" ∧ duration > 0) := by
    rcases h with h | h
    · rintro ⟨-, hdur⟩
      omega
    · rintro ⟨hty, -⟩
      exact h hty
  simp [hc]

/-- Witness for the amended C5 at a concrete finished event: a
completed 1-second rest run leaves store and pending untouched. -/
theorem claim_C5_amended_witness :
    (MainWindow.on_timer_finished ⟨some "rest", some 1, some 0⟩ ⟨1, [], []⟩
      "rest" 1 true).2 = ⟨1, [], []⟩ ∧
    (MainWindow.on_timer_finished ⟨some "rest", some 1, some 0⟩ ⟨1, [], []⟩
      "rest" 1 true).1 = ⟨some "rest", some 1, some 0⟩ :=
  claim_C5_amended_no_persist_keeps_pending ⟨some "rest", some 1, some 0⟩ ⟨1, [], []⟩
    "rest" 1 true (Or.inr (by decide))
